import Mathlib

/-!
Verification of dns-resolution-check.

A shallow embedding of `cmd/dns-resolution-check` (`dnsCheck.go`, `checkConfig.go`).

Conventions of the embedding

* A Go `error` is its message: `Option String`, `none` being `nil`
  (`errors.New m` is `some m`, `err.Error()` is the message).
* A Go `string` is a `String`; `len s` is `s.utf8ByteSize` (the byte length).
* A Go slice is a `List`; `append s x` is `s ++ [x]`, the `nil` slice is `[]`.
* Calls that leave the process (the endpoints query, the host lookups, the two
  reporting calls of `checkclient`) are events. A function that makes such calls
  takes the history of events so far and returns the extended history; the answer
  of the outside world to a call is a field of `Env` and may depend on the history.
* Logging calls are not modelled.
-/

namespace DnsResolutionCheck

/-! ## Data model -/

/-- The part of `v1.EndpointAddress` that the check reads. -/
structure EndpointAddress where
  IP : String
  deriving DecidableEq, Repr

/-- The part of `v1.EndpointSubset` that the check reads. -/
structure EndpointSubset where
  Addresses : List EndpointAddress
  deriving DecidableEq, Repr

/-- The part of `v1.Endpoints` that the check reads. -/
structure Endpoints where
  Subsets : List EndpointSubset
  deriving DecidableEq, Repr

/-- The part of `v1.EndpointsList` that the check reads. -/
structure EndpointsList where
  Items : List Endpoints
  deriving DecidableEq, Repr

/-- The `Dial` closure of a resolver built by `createResolver`: it ignores its
arguments and dials `dialNetwork` at `dialAddress` with a dialer timeout of
`timeoutMs` milliseconds, so it is determined by these three values. -/
structure Dial where
  timeoutMs : Nat
  dialNetwork : String
  dialAddress : String
  deriving DecidableEq, Repr

/-- The fields of `net.Resolver` that the program sets. `Dial = none` is the nil
function of the zero value `net.Resolver{}`. -/
structure Resolver where
  PreferGo : Bool
  Dial : Option Dial
  deriving DecidableEq, Repr

/-- The zero value `net.Resolver{}`. -/
def Resolver.zero : Resolver := { PreferGo := false, Dial := none }

/-- The fields of `Checker` that the check reads; durations are nanoseconds. -/
structure Checker where
  MaxTimeInFailure : Int
  Hostname : String
  CheckTimeout : Int
  Namespace : String
  LabelSelector : String
  NodeName : String
  deriving DecidableEq, Repr

/-! ## Events and the outside world -/

/-- A call that leaves the process. -/
inductive Event where
  /-- The call `dc.client.CoreV1().Endpoints(ns).List(ctx, ListOptions{LabelSelector: sel})`. -/
  | listEndpoints (ns sel : String)
  /-- The call `resolver.LookupHost(ctx, host)`. -/
  | resolverLookupHost (resolver : Resolver) (host : String)
  /-- The call `net.LookupHost(host)`, a lookup with the default resolver. -/
  | netLookupHost (host : String)
  /-- The call `checkclient.ReportSuccess()`. -/
  | reportSuccess
  /-- The call `checkclient.ReportFailure(msgs)`. -/
  | reportFailure (msgs : List String)
  deriving DecidableEq, Repr

/-- The answers of the outside world. Each answer may depend on the events so far. -/
structure Env where
  /-- Outcome of the endpoints query: the list, or the error's text. -/
  listEndpoints : List Event → String → String → Except String EndpointsList
  /-- Outcome of `resolver.LookupHost`: the addresses, or the error's text. -/
  resolverLookupHost : List Event → Resolver → String → Except String (List String)
  /-- Outcome of `net.LookupHost`: the addresses, or the error's text. -/
  netLookupHost : List Event → String → Except String (List String)
  /-- Outcome of `checkclient.ReportSuccess`. -/
  reportSuccess : List Event → Option String
  /-- Outcome of `checkclient.ReportFailure`. -/
  reportFailure : List Event → List String → Option String

/-! ## `dnsCheck.go` -/

/-- The function `createResolver`: the resolver and the error. -/
def createResolver (ip : String) : Resolver × Option String :=
  if ip.utf8ByteSize < 1 then
    (Resolver.zero, some "need a valid ip to create Resolver")
  else
    ({ PreferGo := true,
       Dial := some { timeoutMs := 10000, dialNetwork := "udp", dialAddress := ip ++ ":53" } },
     none)

/-- The innermost loop of `getIpsFromEndpoint`, over the addresses of one subset. -/
def appendAddresses (ipList : List String) (addresses : List EndpointAddress) : List String :=
  addresses.foldl (fun acc a => acc ++ [a.IP]) ipList

/-- The middle loop of `getIpsFromEndpoint`, over the subsets of one item. -/
def appendSubsets (ipList : List String) (subsets : List EndpointSubset) : List String :=
  subsets.foldl (fun acc s => appendAddresses acc s.Addresses) ipList

/-- The outer loop of `getIpsFromEndpoint`, over the items. -/
def appendItems (ipList : List String) (items : List Endpoints) : List String :=
  items.foldl (fun acc ep => appendSubsets acc ep.Subsets) ipList

/-- The function `getIpsFromEndpoint`: the IP list and the error. -/
def getIpsFromEndpoint (endpoints : EndpointsList) : List String × Option String :=
  let ipList : List String := []
  if endpoints.Items.length = 0 then
    (ipList, some "no endpoints found")
  else
    let ipList := appendItems ipList endpoints.Items
    if ipList.length ≠ 0 then
      (ipList, none)
    else
      (ipList, some "no ips found in endpoints list")

/-- The function `dnsLookup`: one call of `resolver.LookupHost`; the error and the history. -/
def dnsLookup (env : Env) (tr : List Event) (resolver : Resolver) (host : String) :
    Option String × List Event :=
  let tr1 := tr ++ [Event.resolverLookupHost resolver host]
  match env.resolverLookupHost tr resolver host with
  | .error err =>
    let message := "DNS Status check determined that " ++ host ++ " is DOWN: " ++ err
    (some message, tr1)
  | .ok _ => (none, tr1)

/-- The loop of `checkEndpoints` over the remaining IPs: create a resolver, look
the host up, return at the first error; `none` when the loop runs to its end. -/
def lookupLoop (env : Env) (host : String) : List String → List Event → Option String × List Event
  | [], tr => (none, tr)
  | ip :: rest, tr =>
    match createResolver ip with
    | (_, some resolverErr) => (some resolverErr, tr)
    | (resolver, none) =>
      match dnsLookup env tr resolver host with
      | (some lookupErr, tr1) => (some lookupErr, tr1)
      | (none, tr1) => lookupLoop env host rest tr1

/-- The method `Checker.checkEndpoints`: the error and the history. -/
def checkEndpoints (env : Env) (dc : Checker) (tr : List Event) : Option String × List Event :=
  let tr1 := tr ++ [Event.listEndpoints dc.Namespace dc.LabelSelector]
  match env.listEndpoints tr dc.Namespace dc.LabelSelector with
  | .error err =>
    let message := "DNS status check unable to get dns endpoints from cluster: " ++ err
    (some message, tr1)
  | .ok endpoints =>
    match getIpsFromEndpoint endpoints with
    | (_, some err) => (some err, tr1)
    | (ips, none) =>
      if ips.length > 0 then
        lookupLoop env dc.Hostname ips tr1
      else
        (some ("no ips found in endpoint with label: " ++ dc.LabelSelector), tr1)

/-- The loop of `checkEndpoints` as `lookupLoop` runs it, with a ghost list added:
`attempted` collects, in order, each IP for which the loop body is entered, that is
each IP for which the step (create a resolver, then look the host up) is started.
The first component is the result of the loop, the second the ghost list. -/
def lookupLoopAttempts (env : Env) (host : String) :
    List String → List Event → List String → (Option String × List Event) × List String
  | [], tr, attempted => ((none, tr), attempted)
  | ip :: rest, tr, attempted =>
    let attempted1 := attempted ++ [ip]
    match createResolver ip with
    | (_, some resolverErr) => ((some resolverErr, tr), attempted1)
    | (resolver, none) =>
      match dnsLookup env tr resolver host with
      | (some lookupErr, tr1) => ((some lookupErr, tr1), attempted1)
      | (none, tr1) => lookupLoopAttempts env host rest tr1 attempted1

/-- The method `Checker.checkEndpoints` with the ghost list of `lookupLoopAttempts`:
the result of `checkEndpoints`, and the IPs whose step was started, in order. -/
def checkEndpointsAttempts (env : Env) (dc : Checker) (tr : List Event) :
    (Option String × List Event) × List String :=
  let tr1 := tr ++ [Event.listEndpoints dc.Namespace dc.LabelSelector]
  match env.listEndpoints tr dc.Namespace dc.LabelSelector with
  | .error err =>
    let message := "DNS status check unable to get dns endpoints from cluster: " ++ err
    ((some message, tr1), [])
  | .ok endpoints =>
    match getIpsFromEndpoint endpoints with
    | (_, some err) => ((some err, tr1), [])
    | (ips, none) =>
      if ips.length > 0 then
        lookupLoopAttempts env dc.Hostname ips tr1 []
      else
        ((some ("no ips found in endpoint with label: " ++ dc.LabelSelector), tr1), [])

/-- The method `Checker.doChecks`: the error and the history. -/
def doChecks (env : Env) (dc : Checker) (tr : List Event) : Option String × List Event :=
  if dc.LabelSelector.utf8ByteSize > 0 then
    match checkEndpoints env dc tr with
    | (some err, tr1) => (some err, tr1)
    | (none, tr1) => (none, tr1)
  else
    let tr1 := tr ++ [Event.netLookupHost dc.Hostname]
    match env.netLookupHost tr dc.Hostname with
    | .error err =>
      let message := "DNS Status check determined that " ++ dc.Hostname ++ " is DOWN: " ++ err
      (some message, tr1)
    | .ok _ => (none, tr1)

/-- The function `reportKHSuccess`: the error and the history. -/
def reportKHSuccess (env : Env) (tr : List Event) : Option String × List Event :=
  let tr1 := tr ++ [Event.reportSuccess]
  match env.reportSuccess tr with
  | some err => (some err, tr1)
  | none => (none, tr1)

/-- The function `reportKHFailure`: the error and the history. -/
def reportKHFailure (env : Env) (tr : List Event) (errorMessage : String) :
    Option String × List Event :=
  let tr1 := tr ++ [Event.reportFailure [errorMessage]]
  match env.reportFailure tr [errorMessage] with
  | some err => (some err, tr1)
  | none => (none, tr1)

/-- The case that the `select` of `Checker.Run` takes. -/
inductive SelectCase where
  /-- The case `<-time.After(dc.CheckTimeout)`: the timer fired first. The worker
  goroutine, which nobody waits for any more, had made `k` of its calls. -/
  | timeAfter (k : Nat)
  /-- The case `err := <-doneChan`: the worker goroutine sent the result of `doChecks`. -/
  | doneChan
  deriving DecidableEq, Repr

/-- The message of the timeout case of `Checker.Run`. -/
def timeoutMessage : String :=
  "Failed to complete DNS Status check in time! Timeout was reached."

/-- The method `Checker.Run`, with `runChecksAsync` and `runChecksWorker`: the worker runs
`doChecks`, and `sel` is the case the `select` takes. The error and the history. -/
def Run (env : Env) (dc : Checker) (sel : SelectCase) : Option String × List Event :=
  let worker := doChecks env dc []
  match sel with
  | .timeAfter k =>
    let tr := worker.2.take k
    let message := timeoutMessage
    let tr1 := tr ++ [Event.reportFailure [message]]
    match env.reportFailure tr [message] with
    | some err => (some err, tr1)
    | none => (some message, tr1)
  | .doneChan =>
    match worker.1 with
    | some err => reportKHFailure env worker.2 err
    | none => reportKHSuccess env worker.2

/-! ## `checkConfig.go` -/

/-- The constant `time.Second` in nanoseconds, the unit of `time.Duration`. -/
def Second : Int := 1000000000

/-- The constant `time.Minute` in nanoseconds. -/
def Minute : Int := 60 * Second

/-- The largest `time.Duration`. -/
def maxDuration : Int := 2 ^ 63 - 1

/-- The smallest `time.Duration`. -/
def minDuration : Int := -(2 ^ 63)

/-- The constant `defaultCheckTimeout`. -/
def defaultCheckTimeout : Int := 5 * Minute

/-- The constant `deadlinePadding`. -/
def deadlinePadding : Int := 5 * Second

/-- The method `time.Time.Add` on instants counted in nanoseconds. -/
def timeAdd (t d : Int) : Int := t + d

/-- The method `time.Time.Sub` on instants counted in nanoseconds: the difference, or the
largest or smallest duration when the difference is out of range. -/
def timeSub (t u : Int) : Int :=
  if t - u > maxDuration then maxDuration
  else if t - u < minDuration then minDuration
  else t - u

/-- The type `CheckConfig`. -/
structure CheckConfig where
  Hostname : String
  NodeName : String
  Namespace : String
  LabelSelector : String
  CheckTimeout : Int
  deriving DecidableEq, Repr

/-- What `parseConfig` reads from outside: the environment variables, the current
time and the result of `checkclient.GetDeadline` (the deadline or the error's text). -/
structure ConfigEnv where
  getenv : String → String
  now : Int
  getDeadline : Except String Int

/-- The function `parseConfig`: the configuration, or the error's text. -/
def parseConfig (e : ConfigEnv) : Except String CheckConfig :=
  let checkTimeout : Int :=
    match e.getDeadline with
    | .ok deadline =>
      let remaining := timeSub deadline (timeAdd e.now deadlinePadding)
      if remaining > 0 then remaining else defaultCheckTimeout
    | .error _ => defaultCheckTimeout
  let hostname := e.getenv "HOSTNAME"
  if hostname.utf8ByteSize = 0 then
    .error "HOSTNAME environment variable has not been set"
  else
    let nodeName := e.getenv "NODE_NAME"
    if nodeName.utf8ByteSize = 0 then
      .error "failed to retrieve NODE_NAME environment variable"
    else
      .ok { Hostname := hostname,
            NodeName := nodeName,
            Namespace := e.getenv "NAMESPACE",
            LabelSelector := e.getenv "DNS_POD_SELECTOR",
            CheckTimeout := checkTimeout }

/-- The constant `maxTimeInFailure`. -/
def maxTimeInFailure : Int := 60 * Second

/-- The function `New` of `main.go`. -/
def New (cfg : CheckConfig) : Checker :=
  { Hostname := cfg.Hostname,
    MaxTimeInFailure := maxTimeInFailure,
    CheckTimeout := cfg.CheckTimeout,
    Namespace := cfg.Namespace,
    LabelSelector := cfg.LabelSelector,
    NodeName := cfg.NodeName }

/-! ## Notions of the specification -/

/-- The IPs of an endpoints list as the specification describes them: items in
order, within an item its subsets in order, within a subset its addresses in order. -/
def flattenIPs (endpoints : EndpointsList) : List String :=
  endpoints.Items.flatMap fun ep =>
    ep.Subsets.flatMap fun s => s.Addresses.map fun a => a.IP

/-- An endpoints list has an address when some subset of some item has one. -/
def hasAddress (endpoints : EndpointsList) : Prop :=
  ∃ ep ∈ endpoints.Items, ∃ s ∈ ep.Subsets, s.Addresses ≠ []

/-- The lookup calls of `checkEndpoints` for a list of IPs, in order: one
`resolver.LookupHost` per IP, with the resolver that `createResolver` builds for it. -/
def lookupEvents (host : String) (ips : List String) : List Event :=
  ips.map fun ip => Event.resolverLookupHost (createResolver ip).1 host

/-- The error of creating the resolver for the IP at index `i`, if any. -/
def resolverError (ips : List String) (i : Nat) : Option String :=
  match ips[i]? with
  | none => none
  | some ip => (createResolver ip).2

/-- The error of the step of `checkEndpoints` for the IP at index `i`, if any, when
the steps before it succeeded, so that the history is `base` followed by the lookups
for the IPs before `i`: the error of creating the resolver, else the error of the lookup. -/
def stepError (env : Env) (host : String) (base : List Event) (ips : List String) (i : Nat) :
    Option String :=
  match ips[i]? with
  | none => none
  | some ip =>
    match createResolver ip with
    | (_, some resolverErr) => some resolverErr
    | (resolver, none) =>
      (dnsLookup env (base ++ lookupEvents host (ips.take i)) resolver host).1

/-- Whether an event is a call of the reporting sink. -/
def Event.isSink : Event → Bool
  | .reportSuccess => true
  | .reportFailure _ => true
  | _ => false

/-- The calls of the reporting sink in a history, in order. -/
def sinkCalls (tr : List Event) : List Event := tr.filter Event.isSink

/-- The answer of the reporting sink to a call made after the history `hist`. -/
def sinkResponse (env : Env) (hist : List Event) : Event → Option String
  | .reportSuccess => env.reportSuccess hist
  | .reportFailure msgs => env.reportFailure hist msgs
  | _ => none

/-! ## Concrete inputs -/

/-- A world where the endpoints query returns `endpoints`, every lookup of a host in
`down` fails with "no such host" and every other lookup succeeds, `ReportSuccess`
answers `successErr` and `ReportFailure` answers `failureErr`. -/
def sampleEnv (endpoints : EndpointsList) (down : List String)
    (successErr failureErr : Option String) : Env :=
  { listEndpoints := fun _ _ _ => .ok endpoints,
    resolverLookupHost := fun _ _ host =>
      if host ∈ down then .error "no such host" else .ok ["93.184.216.34"],
    netLookupHost := fun _ host =>
      if host ∈ down then .error "no such host" else .ok ["93.184.216.34"],
    reportSuccess := fun _ => successErr,
    reportFailure := fun _ _ => failureErr }

/-- A world where the endpoints query returns `endpoints`, a lookup through the
resolver that `createResolver` builds for `server` fails with "i/o timeout", and
every other call succeeds. -/
def serverDownEnv (endpoints : EndpointsList) (server : String) : Env :=
  { listEndpoints := fun _ _ _ => .ok endpoints,
    resolverLookupHost := fun _ resolver _ =>
      if resolver = (createResolver server).1 then .error "i/o timeout"
      else .ok ["93.184.216.34"],
    netLookupHost := fun _ _ => .ok ["93.184.216.34"],
    reportSuccess := fun _ => none,
    reportFailure := fun _ _ => none }

/-- A checker for `host` with the label selector `sel`. -/
def sampleChecker (host sel : String) : Checker :=
  { MaxTimeInFailure := maxTimeInFailure, Hostname := host, CheckTimeout := defaultCheckTimeout,
    Namespace := "kube-system", LabelSelector := sel, NodeName := "node-1" }

/-- Environment variables with `HOSTNAME` set to `host` and `NODE_NAME` to "node-1". -/
def sampleGetenv (host : String) (name : String) : String :=
  if name = "HOSTNAME" then host else if name = "NODE_NAME" then "node-1" else ""

/-! ## Lemmas on `getIpsFromEndpoint` -/

theorem appendAddresses_eq (ipList : List String) (addresses : List EndpointAddress) :
    appendAddresses ipList addresses = ipList ++ addresses.map fun a => a.IP := by
  induction addresses generalizing ipList with
  | nil => simp [appendAddresses]
  | cons a as ih =>
    have h := ih (ipList ++ [a.IP])
    simp only [appendAddresses, List.foldl_cons] at h ⊢
    rw [h]; simp

theorem appendSubsets_eq (ipList : List String) (subsets : List EndpointSubset) :
    appendSubsets ipList subsets
      = ipList ++ subsets.flatMap fun s => s.Addresses.map fun a => a.IP := by
  induction subsets generalizing ipList with
  | nil => simp [appendSubsets]
  | cons s ss ih =>
    have h := ih (appendAddresses ipList s.Addresses)
    simp only [appendSubsets, List.foldl_cons] at h ⊢
    rw [h, appendAddresses_eq]; simp

theorem appendItems_eq (ipList : List String) (items : List Endpoints) :
    appendItems ipList items
      = ipList ++ items.flatMap fun ep =>
          ep.Subsets.flatMap fun s => s.Addresses.map fun a => a.IP := by
  induction items generalizing ipList with
  | nil => simp [appendItems]
  | cons ep eps ih =>
    have h := ih (appendSubsets ipList ep.Subsets)
    simp only [appendItems, List.foldl_cons] at h ⊢
    rw [h, appendSubsets_eq]; simp

theorem appendItems_nil (endpoints : EndpointsList) :
    appendItems [] endpoints.Items = flattenIPs endpoints := by
  rw [appendItems_eq]; simp [flattenIPs]

theorem flattenIPs_ne_nil_iff (endpoints : EndpointsList) :
    flattenIPs endpoints ≠ [] ↔ hasAddress endpoints := by
  simp [flattenIPs, hasAddress, List.flatMap_eq_nil_iff]

theorem utf8ByteSize_eq_zero_iff (s : String) : s.utf8ByteSize = 0 ↔ s = "" := by
  rcases s with ⟨cs⟩
  cases cs with
  | nil => simp [String.utf8ByteSize, String.utf8ByteSize.go]
  | cons c cs =>
    have hc := Char.utf8Size_pos c
    constructor
    · intro h
      simp only [String.utf8ByteSize, String.utf8ByteSize.go] at h
      omega
    · intro h
      exact absurd (congrArg String.data h) (by simp)

theorem utf8ByteSize_lt_one_iff (s : String) : s.utf8ByteSize < 1 ↔ s = "" := by
  rw [← utf8ByteSize_eq_zero_iff]; omega

theorem getIpsFromEndpoint_eq (endpoints : EndpointsList) :
    getIpsFromEndpoint endpoints
      = if endpoints.Items = [] then ([], some "no endpoints found")
        else if flattenIPs endpoints = [] then ([], some "no ips found in endpoints list")
        else (flattenIPs endpoints, none) := by
  unfold getIpsFromEndpoint
  simp only [appendItems_nil, List.length_eq_zero, ne_eq]
  by_cases h1 : endpoints.Items = []
  · simp [h1]
  · by_cases h2 : flattenIPs endpoints = []
    · simp [h1, h2]
    · simp [h1, h2]

/-! ## Lemmas on the loop of `checkEndpoints` -/

theorem dnsLookup_snd (env : Env) (tr : List Event) (resolver : Resolver) (host : String) :
    (dnsLookup env tr resolver host).2 = tr ++ [Event.resolverLookupHost resolver host] := by
  unfold dnsLookup
  cases env.resolverLookupHost tr resolver host <;> rfl

theorem lookupLoop_cons_resolverError (env : Env) (host ip : String) (rest : List String)
    (tr : List Event) (e : String) (h : (createResolver ip).2 = some e) :
    lookupLoop env host (ip :: rest) tr = (some e, tr) := by
  rcases hc : createResolver ip with ⟨r, oe⟩
  rw [hc] at h
  simp only at h
  subst h
  simp [lookupLoop, hc]

theorem lookupLoop_cons_lookupError (env : Env) (host ip : String) (rest : List String)
    (tr : List Event) (e : String) (h : (createResolver ip).2 = none)
    (hl : (dnsLookup env tr (createResolver ip).1 host).1 = some e) :
    lookupLoop env host (ip :: rest) tr
      = (some e, tr ++ [Event.resolverLookupHost (createResolver ip).1 host]) := by
  rcases hc : createResolver ip with ⟨r, oe⟩
  rw [hc] at h hl
  simp only at h hl
  subst h
  rcases hd : dnsLookup env tr r host with ⟨le, tr1⟩
  have h2 := dnsLookup_snd env tr r host
  rw [hd] at hl h2
  simp only at hl h2
  subst hl h2
  simp [lookupLoop, hc, hd]

theorem lookupLoop_cons_ok (env : Env) (host ip : String) (rest : List String)
    (tr : List Event) (h : (createResolver ip).2 = none)
    (hl : (dnsLookup env tr (createResolver ip).1 host).1 = none) :
    lookupLoop env host (ip :: rest) tr
      = lookupLoop env host rest (tr ++ [Event.resolverLookupHost (createResolver ip).1 host]) := by
  rcases hc : createResolver ip with ⟨r, oe⟩
  rw [hc] at h hl
  simp only at h hl
  subst h
  rcases hd : dnsLookup env tr r host with ⟨le, tr1⟩
  have h2 := dnsLookup_snd env tr r host
  rw [hd] at hl h2
  simp only at hl h2
  subst hl h2
  simp [lookupLoop, hc, hd]

theorem stepError_eq (env : Env) (host : String) (base : List Event) (ips : List String)
    (i : Nat) (hi : i < ips.length) :
    stepError env host base ips i
      = match (createResolver ips[i]).2 with
        | some e => some e
        | none =>
          (dnsLookup env (base ++ lookupEvents host (ips.take i)) (createResolver ips[i]).1 host).1 := by
  unfold stepError
  rw [List.getElem?_eq_getElem hi]
  rcases hc : createResolver ips[i] with ⟨r, oe⟩
  cases oe <;> simp only [hc]

theorem resolverError_eq (ips : List String) (i : Nat) (hi : i < ips.length) :
    resolverError ips i = (createResolver ips[i]).2 := by
  unfold resolverError
  rw [List.getElem?_eq_getElem hi]

theorem lookupEvents_take_succ (host : String) (ips : List String) (i : Nat)
    (hi : i < ips.length) :
    lookupEvents host (ips.take (i + 1))
      = lookupEvents host (ips.take i)
          ++ [Event.resolverLookupHost (createResolver ips[i]).1 host] := by
  unfold lookupEvents
  rw [List.take_succ, List.getElem?_eq_getElem hi]
  simp only [Option.toList, List.map_append, List.map_cons, List.map_nil]

theorem lookupLoop_skip (env : Env) (host : String) (base : List Event) (ips : List String) :
    ∀ i, i ≤ ips.length → (∀ j, j < i → stepError env host base ips j = none) →
      lookupLoop env host ips base
        = lookupLoop env host (ips.drop i) (base ++ lookupEvents host (ips.take i)) := by
  intro i
  induction i with
  | zero => intro _ _; simp [lookupEvents]
  | succ i ih =>
    intro hi hall
    have hlt : i < ips.length := hi
    rw [ih (Nat.le_of_lt hlt) (fun j hj => hall j (Nat.lt_succ_of_lt hj))]
    have hstep := hall i (Nat.lt_succ_self i)
    rw [stepError_eq env host base ips i hlt] at hstep
    rw [List.drop_eq_getElem_cons hlt]
    cases hr : (createResolver ips[i]).2 with
    | some e => rw [hr] at hstep; simp at hstep
    | none =>
      rw [hr] at hstep
      simp only at hstep
      rw [lookupLoop_cons_ok env host ips[i] _ _ hr hstep, lookupEvents_take_succ host ips i hlt,
        List.append_assoc]

theorem checkEndpoints_eq_lookupLoop (env : Env) (dc : Checker) (tr : List Event)
    (endpoints : EndpointsList) (ips : List String)
    (hq : env.listEndpoints tr dc.Namespace dc.LabelSelector = .ok endpoints)
    (hx : getIpsFromEndpoint endpoints = (ips, none)) (hpos : 0 < ips.length) :
    checkEndpoints env dc tr
      = lookupLoop env dc.Hostname ips
          (tr ++ [Event.listEndpoints dc.Namespace dc.LabelSelector]) := by
  unfold checkEndpoints
  simp only [hq, hx]
  simp [hpos]

theorem checkEndpoints_first_error (env : Env) (dc : Checker) (tr : List Event)
    (endpoints : EndpointsList) (ips : List String)
    (hq : env.listEndpoints tr dc.Namespace dc.LabelSelector = .ok endpoints)
    (hx : getIpsFromEndpoint endpoints = (ips, none))
    (i : Nat) (e : String) (hi : i < ips.length)
    (hbefore : ∀ j, j < i →
      stepError env dc.Hostname (tr ++ [Event.listEndpoints dc.Namespace dc.LabelSelector])
        ips j = none)
    (hat : stepError env dc.Hostname (tr ++ [Event.listEndpoints dc.Namespace dc.LabelSelector])
        ips i = some e) :
    checkEndpoints env dc tr
      = (some e, tr ++ [Event.listEndpoints dc.Namespace dc.LabelSelector]
          ++ lookupEvents dc.Hostname
              (ips.take (if (resolverError ips i).isSome then i else i + 1))) := by
  rw [checkEndpoints_eq_lookupLoop env dc tr endpoints ips hq hx (Nat.lt_of_le_of_lt (Nat.zero_le i) hi),
    lookupLoop_skip env dc.Hostname _ ips i (Nat.le_of_lt hi) hbefore,
    List.drop_eq_getElem_cons hi, resolverError_eq ips i hi]
  rw [stepError_eq env dc.Hostname _ ips i hi] at hat
  cases hr : (createResolver ips[i]).2 with
  | some e1 =>
    rw [hr] at hat
    simp only [Option.some.injEq] at hat
    subst hat
    rw [lookupLoop_cons_resolverError env dc.Hostname ips[i] _ _ e1 hr]
    simp
  | none =>
    rw [hr] at hat
    simp only at hat
    rw [lookupLoop_cons_lookupError env dc.Hostname ips[i] _ _ e hr hat]
    simp [lookupEvents_take_succ dc.Hostname ips i hi]

theorem stepError_none_lookup_ok (env : Env) (host : String) (base : List Event)
    (ips : List String) (j : Nat) (hj : j < ips.length)
    (h : stepError env host base ips j = none) :
    resolverError ips j = none ∧
    ∃ addrs, env.resolverLookupHost (base ++ lookupEvents host (ips.take j))
      (createResolver ips[j]).1 host = .ok addrs := by
  rw [stepError_eq env host base ips j hj] at h
  rw [resolverError_eq ips j hj]
  cases hr : (createResolver ips[j]).2 with
  | some e1 => rw [hr] at h; simp at h
  | none =>
    rw [hr] at h
    simp only at h
    refine ⟨rfl, ?_⟩
    unfold dnsLookup at h
    cases hl : env.resolverLookupHost (base ++ lookupEvents host (ips.take j))
        (createResolver ips[j]).1 host with
    | error err => rw [hl] at h; simp at h
    | ok addrs => exact ⟨addrs, rfl⟩

theorem checkEndpoints_nil_all_steps (env : Env) (dc : Checker) (tr : List Event)
    (endpoints : EndpointsList) (ips : List String)
    (hq : env.listEndpoints tr dc.Namespace dc.LabelSelector = .ok endpoints)
    (hx : getIpsFromEndpoint endpoints = (ips, none))
    (hnil : (checkEndpoints env dc tr).1 = none) :
    ∀ j, j < ips.length →
      stepError env dc.Hostname (tr ++ [Event.listEndpoints dc.Namespace dc.LabelSelector])
        ips j = none := by
  by_contra hex
  push_neg at hex
  have hex2 : ∃ j, j < ips.length ∧
      stepError env dc.Hostname (tr ++ [Event.listEndpoints dc.Namespace dc.LabelSelector])
        ips j ≠ none := hex
  classical
  have hmin := Nat.find_spec hex2
  have hless := fun j (hj : j < Nat.find hex2) => Nat.find_min hex2 hj
  obtain ⟨e, he⟩ := Option.ne_none_iff_exists'.1 hmin.2
  have hres := checkEndpoints_first_error env dc tr endpoints ips hq hx (Nat.find hex2) e hmin.1
    (fun j hj => by
      have := hless j hj
      by_contra hne
      exact this ⟨Nat.lt_trans hj hmin.1, hne⟩) he
  rw [hres] at hnil
  simp at hnil

theorem getIpsFromEndpoint_ok_pos (endpoints : EndpointsList) (ips : List String)
    (hx : getIpsFromEndpoint endpoints = (ips, none)) : 0 < ips.length := by
  rw [getIpsFromEndpoint_eq] at hx
  split_ifs at hx with h1 h2
  · simp at hx
  · simp at hx
  · have h3 : flattenIPs endpoints = ips := congrArg Prod.fst hx
    rw [← h3]
    exact List.length_pos.2 h2

theorem checkEndpoints_all_steps_ok (env : Env) (dc : Checker) (tr : List Event)
    (endpoints : EndpointsList) (ips : List String)
    (hq : env.listEndpoints tr dc.Namespace dc.LabelSelector = .ok endpoints)
    (hx : getIpsFromEndpoint endpoints = (ips, none))
    (hall : ∀ j, j < ips.length →
      stepError env dc.Hostname (tr ++ [Event.listEndpoints dc.Namespace dc.LabelSelector])
        ips j = none) :
    checkEndpoints env dc tr
      = (none, tr ++ [Event.listEndpoints dc.Namespace dc.LabelSelector]
          ++ lookupEvents dc.Hostname ips) := by
  rw [checkEndpoints_eq_lookupLoop env dc tr endpoints ips hq hx
      (getIpsFromEndpoint_ok_pos endpoints ips hx),
    lookupLoop_skip env dc.Hostname _ ips ips.length (Nat.le_refl _) hall]
  simp [lookupLoop]

/-! ## Lemmas on the ghost list of attempted IPs -/

theorem lookupLoopAttempts_fst (env : Env) (host : String) (ips : List String) :
    ∀ tr attempted,
      (lookupLoopAttempts env host ips tr attempted).1 = lookupLoop env host ips tr := by
  induction ips with
  | nil => intro tr attempted; rfl
  | cons ip rest ih =>
    intro tr attempted
    unfold lookupLoopAttempts lookupLoop
    rcases hc : createResolver ip with ⟨r, oe⟩
    cases oe with
    | some e => rfl
    | none =>
      simp only
      rcases hd : dnsLookup env tr r host with ⟨le, tr1⟩
      cases le with
      | some e => rfl
      | none => exact ih tr1 (attempted ++ [ip])

theorem checkEndpointsAttempts_fst (env : Env) (dc : Checker) (tr : List Event) :
    (checkEndpointsAttempts env dc tr).1 = checkEndpoints env dc tr := by
  unfold checkEndpointsAttempts checkEndpoints
  cases env.listEndpoints tr dc.Namespace dc.LabelSelector with
  | error err => rfl
  | ok endpoints =>
    rcases hg : getIpsFromEndpoint endpoints with ⟨ips, oe⟩
    cases oe with
    | some e => simp only [hg]
    | none =>
      simp only [hg]
      split_ifs with hpos
      · exact lookupLoopAttempts_fst env dc.Hostname ips _ _
      · rfl

theorem lookupLoopAttempts_cons_error (env : Env) (host ip : String) (rest : List String)
    (tr : List Event) (attempted : List String)
    (h : (lookupLoop env host [ip] tr).1 ≠ none) :
    (lookupLoopAttempts env host (ip :: rest) tr attempted).2 = attempted ++ [ip] := by
  unfold lookupLoopAttempts
  unfold lookupLoop at h
  rcases hc : createResolver ip with ⟨r, oe⟩
  rw [hc] at h
  cases oe with
  | some e => rfl
  | none =>
    simp only at h ⊢
    rcases hd : dnsLookup env tr r host with ⟨le, tr1⟩
    rw [hd] at h
    cases le with
    | some e => rfl
    | none => simp [lookupLoop] at h

theorem lookupLoopAttempts_cons_ok (env : Env) (host ip : String) (rest : List String)
    (tr : List Event) (attempted : List String) (h : (createResolver ip).2 = none)
    (hl : (dnsLookup env tr (createResolver ip).1 host).1 = none) :
    lookupLoopAttempts env host (ip :: rest) tr attempted
      = lookupLoopAttempts env host rest
          (tr ++ [Event.resolverLookupHost (createResolver ip).1 host]) (attempted ++ [ip]) := by
  rcases hc : createResolver ip with ⟨r, oe⟩
  rw [hc] at h hl
  simp only at h hl
  subst h
  rcases hd : dnsLookup env tr r host with ⟨le, tr1⟩
  have h2 := dnsLookup_snd env tr r host
  rw [hd] at hl h2
  simp only at hl h2
  subst hl h2
  simp [lookupLoopAttempts, hc, hd]

theorem lookupLoopAttempts_skip (env : Env) (host : String) (base : List Event)
    (ips : List String) :
    ∀ i, i ≤ ips.length → (∀ j, j < i → stepError env host base ips j = none) →
      lookupLoopAttempts env host ips base []
        = lookupLoopAttempts env host (ips.drop i) (base ++ lookupEvents host (ips.take i))
            (ips.take i) := by
  intro i
  induction i with
  | zero => intro _ _; simp [lookupEvents]
  | succ i ih =>
    intro hi hall
    have hlt : i < ips.length := hi
    rw [ih (Nat.le_of_lt hlt) (fun j hj => hall j (Nat.lt_succ_of_lt hj))]
    have hstep := hall i (Nat.lt_succ_self i)
    rw [stepError_eq env host base ips i hlt] at hstep
    rw [List.drop_eq_getElem_cons hlt]
    cases hr : (createResolver ips[i]).2 with
    | some e => rw [hr] at hstep; simp at hstep
    | none =>
      rw [hr] at hstep
      simp only at hstep
      rw [lookupLoopAttempts_cons_ok env host ips[i] _ _ _ hr hstep,
        lookupEvents_take_succ host ips i hlt, List.append_assoc]
      congr 1
      rw [List.take_succ, List.getElem?_eq_getElem hlt]
      rfl

theorem checkEndpointsAttempts_eq_loop (env : Env) (dc : Checker) (tr : List Event)
    (endpoints : EndpointsList) (ips : List String)
    (hq : env.listEndpoints tr dc.Namespace dc.LabelSelector = .ok endpoints)
    (hx : getIpsFromEndpoint endpoints = (ips, none)) :
    checkEndpointsAttempts env dc tr
      = lookupLoopAttempts env dc.Hostname ips
          (tr ++ [Event.listEndpoints dc.Namespace dc.LabelSelector]) [] := by
  have hpos := getIpsFromEndpoint_ok_pos endpoints ips hx
  unfold checkEndpointsAttempts
  simp only [hq, hx]
  simp [hpos]

theorem checkEndpointsAttempts_first_error (env : Env) (dc : Checker) (tr : List Event)
    (endpoints : EndpointsList) (ips : List String)
    (hq : env.listEndpoints tr dc.Namespace dc.LabelSelector = .ok endpoints)
    (hx : getIpsFromEndpoint endpoints = (ips, none))
    (i : Nat) (e : String) (hi : i < ips.length)
    (hbefore : ∀ j, j < i →
      stepError env dc.Hostname (tr ++ [Event.listEndpoints dc.Namespace dc.LabelSelector])
        ips j = none)
    (hat : stepError env dc.Hostname (tr ++ [Event.listEndpoints dc.Namespace dc.LabelSelector])
        ips i = some e) :
    (checkEndpointsAttempts env dc tr).2 = ips.take (i + 1) := by
  rw [checkEndpointsAttempts_eq_loop env dc tr endpoints ips hq hx,
    lookupLoopAttempts_skip env dc.Hostname _ ips i (Nat.le_of_lt hi) hbefore,
    List.drop_eq_getElem_cons hi]
  rw [stepError_eq env dc.Hostname _ ips i hi] at hat
  rw [lookupLoopAttempts_cons_error, List.take_succ, List.getElem?_eq_getElem hi]
  · rfl
  · cases hr : (createResolver ips[i]).2 with
    | some e1 =>
      rw [lookupLoop_cons_resolverError env dc.Hostname ips[i] [] _ e1 hr]
      simp
    | none =>
      rw [hr] at hat
      simp only at hat
      rw [lookupLoop_cons_lookupError env dc.Hostname ips[i] [] _ e hr hat]
      simp

theorem checkEndpointsAttempts_all_steps_ok (env : Env) (dc : Checker) (tr : List Event)
    (endpoints : EndpointsList) (ips : List String)
    (hq : env.listEndpoints tr dc.Namespace dc.LabelSelector = .ok endpoints)
    (hx : getIpsFromEndpoint endpoints = (ips, none))
    (hall : ∀ j, j < ips.length →
      stepError env dc.Hostname (tr ++ [Event.listEndpoints dc.Namespace dc.LabelSelector])
        ips j = none) :
    (checkEndpointsAttempts env dc tr).2 = ips := by
  rw [checkEndpointsAttempts_eq_loop env dc tr endpoints ips hq hx,
    lookupLoopAttempts_skip env dc.Hostname _ ips ips.length (Nat.le_refl _) hall]
  simp [lookupLoopAttempts]

theorem lookupLoop_events (env : Env) (host : String) (ips : List String) :
    ∀ tr, ∃ evs, (lookupLoop env host ips tr).2 = tr ++ evs ∧
      ∀ ev, ev ∈ evs → ∃ r, ev = Event.resolverLookupHost r host := by
  induction ips with
  | nil => intro tr; exact ⟨[], by simp [lookupLoop], by simp⟩
  | cons ip rest ih =>
    intro tr
    cases hr : (createResolver ip).2 with
    | some e =>
      rw [lookupLoop_cons_resolverError env host ip rest tr e hr]
      exact ⟨[], by simp, by simp⟩
    | none =>
      cases hl : (dnsLookup env tr (createResolver ip).1 host).1 with
      | some e =>
        rw [lookupLoop_cons_lookupError env host ip rest tr e hr hl]
        exact ⟨[Event.resolverLookupHost (createResolver ip).1 host], rfl, by simp⟩
      | none =>
        rw [lookupLoop_cons_ok env host ip rest tr hr hl]
        obtain ⟨evs, h1, h2⟩ := ih (tr ++ [Event.resolverLookupHost (createResolver ip).1 host])
        refine ⟨Event.resolverLookupHost (createResolver ip).1 host :: evs, by simp [h1], ?_⟩
        intro ev hev
        rcases List.mem_cons.1 hev with h | h
        · exact ⟨_, h⟩
        · exact h2 ev h

theorem checkEndpoints_events (env : Env) (dc : Checker) (tr : List Event) :
    ∃ evs, (checkEndpoints env dc tr).2 = tr ++ evs ∧
      ∀ ev, ev ∈ evs → ev = Event.listEndpoints dc.Namespace dc.LabelSelector ∨
        ∃ r, ev = Event.resolverLookupHost r dc.Hostname := by
  unfold checkEndpoints
  cases env.listEndpoints tr dc.Namespace dc.LabelSelector with
  | error err => exact ⟨[Event.listEndpoints dc.Namespace dc.LabelSelector], rfl, by simp⟩
  | ok endpoints =>
    rcases hg : getIpsFromEndpoint endpoints with ⟨ips, oe⟩
    cases oe with
    | some e =>
      simp only [hg]
      exact ⟨[Event.listEndpoints dc.Namespace dc.LabelSelector], rfl, by simp⟩
    | none =>
      simp only [hg]
      split_ifs with hpos
      · obtain ⟨evs, h1, h2⟩ := lookupLoop_events env dc.Hostname ips
          (tr ++ [Event.listEndpoints dc.Namespace dc.LabelSelector])
        refine ⟨Event.listEndpoints dc.Namespace dc.LabelSelector :: evs, by simp [h1], ?_⟩
        intro ev hev
        rcases List.mem_cons.1 hev with h | h
        · exact Or.inl h
        · exact Or.inr (h2 ev h)
      · exact ⟨[Event.listEndpoints dc.Namespace dc.LabelSelector], rfl, by simp⟩

theorem doChecks_eq_checkEndpoints (env : Env) (dc : Checker) (tr : List Event)
    (h : dc.LabelSelector ≠ "") : doChecks env dc tr = checkEndpoints env dc tr := by
  have hpos : dc.LabelSelector.utf8ByteSize > 0 := by
    have := mt (utf8ByteSize_eq_zero_iff dc.LabelSelector).1 h
    omega
  unfold doChecks
  rw [if_pos hpos]
  rcases checkEndpoints env dc tr with ⟨oe, tr1⟩
  cases oe <;> rfl

theorem doChecks_direct (env : Env) (dc : Checker) (tr : List Event)
    (h : dc.LabelSelector = "") :
    doChecks env dc tr
      = match env.netLookupHost tr dc.Hostname with
        | .error err =>
          (some ("DNS Status check determined that " ++ dc.Hostname ++ " is DOWN: " ++ err),
            tr ++ [Event.netLookupHost dc.Hostname])
        | .ok _ => (none, tr ++ [Event.netLookupHost dc.Hostname]) := by
  have hz : ¬ dc.LabelSelector.utf8ByteSize > 0 := by
    have := (utf8ByteSize_eq_zero_iff dc.LabelSelector).2 h
    omega
  unfold doChecks
  rw [if_neg hz]

theorem doChecks_events (env : Env) (dc : Checker) (tr : List Event) :
    ∃ evs, (doChecks env dc tr).2 = tr ++ evs ∧ ∀ ev, ev ∈ evs → ev.isSink = false := by
  by_cases h : dc.LabelSelector = ""
  · rw [doChecks_direct env dc tr h]
    refine ⟨[Event.netLookupHost dc.Hostname], ?_, by simp [Event.isSink]⟩
    cases env.netLookupHost tr dc.Hostname <;> rfl
  · rw [doChecks_eq_checkEndpoints env dc tr h]
    obtain ⟨evs, h1, h2⟩ := checkEndpoints_events env dc tr
    refine ⟨evs, h1, ?_⟩
    intro ev hev
    rcases h2 ev hev with h3 | ⟨r, h3⟩ <;> subst h3 <;> rfl

theorem sinkCalls_worker_take (env : Env) (dc : Checker) (k : Nat) :
    sinkCalls ((doChecks env dc []).2.take k) = [] := by
  obtain ⟨evs, h1, h2⟩ := doChecks_events env dc []
  unfold sinkCalls
  rw [List.filter_eq_nil_iff]
  intro ev hev
  have hmem : ev ∈ evs := by
    have := List.mem_of_mem_take hev
    rw [h1] at this
    simpa using this
  simp [h2 ev hmem]

theorem sinkCalls_worker (env : Env) (dc : Checker) :
    sinkCalls (doChecks env dc []).2 = [] := by
  have h := sinkCalls_worker_take env dc (doChecks env dc []).2.length
  rwa [List.take_length] at h

theorem sinkCalls_append_sink (tr : List Event) (ev : Event) (h : sinkCalls tr = [])
    (hev : ev.isSink = true) : sinkCalls (tr ++ [ev]) = [ev] := by
  unfold sinkCalls at h ⊢
  rw [List.filter_append, h]
  simp [List.filter, hev]

/-! ## Lemmas on `Run` -/

theorem Run_timeAfter_snd (env : Env) (dc : Checker) (k : Nat) :
    (Run env dc (.timeAfter k)).2
      = (doChecks env dc []).2.take k ++ [Event.reportFailure [timeoutMessage]] := by
  unfold Run
  simp only
  cases env.reportFailure ((doChecks env dc []).2.take k) [timeoutMessage] <;> rfl

theorem Run_timeAfter_fst (env : Env) (dc : Checker) (k : Nat) :
    (Run env dc (.timeAfter k)).1
      = match env.reportFailure ((doChecks env dc []).2.take k) [timeoutMessage] with
        | some err => some err
        | none => some timeoutMessage := by
  unfold Run
  simp only
  cases env.reportFailure ((doChecks env dc []).2.take k) [timeoutMessage] <;> rfl

theorem Run_doneChan_failure (env : Env) (dc : Checker) (m : String)
    (h : (doChecks env dc []).1 = some m) :
    Run env dc .doneChan
      = (env.reportFailure (doChecks env dc []).2 [m],
         (doChecks env dc []).2 ++ [Event.reportFailure [m]]) := by
  unfold Run
  simp only [h]
  unfold reportKHFailure
  cases env.reportFailure (doChecks env dc []).2 [m] <;> rfl

theorem Run_doneChan_success (env : Env) (dc : Checker)
    (h : (doChecks env dc []).1 = none) :
    Run env dc .doneChan
      = (env.reportSuccess (doChecks env dc []).2,
         (doChecks env dc []).2 ++ [Event.reportSuccess]) := by
  unfold Run
  simp only [h]
  unfold reportKHSuccess
  cases env.reportSuccess (doChecks env dc []).2 <;> rfl

theorem sinkCalls_Run_timeAfter (env : Env) (dc : Checker) (k : Nat) :
    sinkCalls (Run env dc (.timeAfter k)).2 = [Event.reportFailure [timeoutMessage]] := by
  rw [Run_timeAfter_snd]
  exact sinkCalls_append_sink _ _ (sinkCalls_worker_take env dc k) rfl

theorem sinkCalls_Run_failure (env : Env) (dc : Checker) (m : String)
    (h : (doChecks env dc []).1 = some m) :
    sinkCalls (Run env dc .doneChan).2 = [Event.reportFailure [m]] := by
  rw [Run_doneChan_failure env dc m h]
  exact sinkCalls_append_sink _ _ (sinkCalls_worker env dc) rfl

theorem sinkCalls_Run_success (env : Env) (dc : Checker)
    (h : (doChecks env dc []).1 = none) :
    sinkCalls (Run env dc .doneChan).2 = [Event.reportSuccess] := by
  rw [Run_doneChan_success env dc h]
  exact sinkCalls_append_sink _ _ (sinkCalls_worker env dc) rfl

/-! ## The claims on `getIpsFromEndpoint` -/

/-- C1: for every endpoints list that has at least one address, `getIpsFromEndpoint`
returns no error and returns exactly the IPs of all addresses in their order: items
in order, within an item its subsets in order, within a subset its addresses in order. -/
theorem getIpsFromEndpoint_flattens (endpoints : EndpointsList) (h : hasAddress endpoints) :
    getIpsFromEndpoint endpoints = (flattenIPs endpoints, none) := by
  have hne : flattenIPs endpoints ≠ [] := (flattenIPs_ne_nil_iff endpoints).2 h
  have hitems : endpoints.Items ≠ [] := by
    obtain ⟨ep, hep, _⟩ := h
    exact List.ne_nil_of_mem hep
  rw [getIpsFromEndpoint_eq]
  simp [hne, hitems]

/-- Witness of C1: the endpoints list of `TestGetIpsFromEndpoint`, extended by a
second item with an empty subset and a further address. -/
theorem getIpsFromEndpoint_flattens_witness :
    hasAddress ⟨[⟨[⟨[⟨"10.0.0.1"⟩, ⟨"10.0.0.2"⟩]⟩]⟩, ⟨[⟨[]⟩, ⟨[⟨"10.0.0.3"⟩]⟩]⟩]⟩ ∧
    getIpsFromEndpoint ⟨[⟨[⟨[⟨"10.0.0.1"⟩, ⟨"10.0.0.2"⟩]⟩]⟩, ⟨[⟨[]⟩, ⟨[⟨"10.0.0.3"⟩]⟩]⟩]⟩
      = (["10.0.0.1", "10.0.0.2", "10.0.0.3"], none) :=
  ⟨⟨_, List.mem_cons_self _ _, _, List.mem_cons_self _ _, by simp⟩,
   getIpsFromEndpoint_flattens _ ⟨_, List.mem_cons_self _ _, _, List.mem_cons_self _ _, by simp⟩⟩

/-- C2: `getIpsFromEndpoint` fails with "no endpoints found" when `Items` is empty,
and with "no ips found in endpoints list" when `Items` is not empty and no subset of
any item has an address; in both cases the returned IP list is empty. -/
theorem getIpsFromEndpoint_errors (endpoints : EndpointsList) :
    (endpoints.Items = [] →
      getIpsFromEndpoint endpoints = ([], some "no endpoints found")) ∧
    (endpoints.Items ≠ [] → ¬ hasAddress endpoints →
      getIpsFromEndpoint endpoints = ([], some "no ips found in endpoints list")) := by
  constructor
  · intro h
    rw [getIpsFromEndpoint_eq]; simp [h]
  · intro h1 h2
    have h3 : flattenIPs endpoints = [] := by
      by_contra hne
      exact h2 ((flattenIPs_ne_nil_iff endpoints).1 hne)
    rw [getIpsFromEndpoint_eq]; simp [h1, h3]

/-- Witness of C2: the empty list, and a list of two items without any address. -/
theorem getIpsFromEndpoint_errors_witness :
    getIpsFromEndpoint ⟨[]⟩ = ([], some "no endpoints found") ∧
    getIpsFromEndpoint ⟨[⟨[]⟩, ⟨[⟨[]⟩]⟩]⟩ = ([], some "no ips found in endpoints list") :=
  ⟨(getIpsFromEndpoint_errors ⟨[]⟩).1 rfl,
   (getIpsFromEndpoint_errors ⟨[⟨[]⟩, ⟨[⟨[]⟩]⟩]⟩).2 (by simp) (by simp [hasAddress])⟩

/-! ## The claim on `createResolver` -/

/-- C6: `createResolver` returns the error "need a valid ip to create Resolver" when
the IP string is empty, and for every non-empty string, whatever it is, returns no
error and the resolver that prefers Go and dials udp at the string followed by ":53"
with a timeout of 10000 milliseconds. -/
theorem createResolver_empty_or_resolver (ip : String) :
    (ip = "" → (createResolver ip).2 = some "need a valid ip to create Resolver") ∧
    (ip ≠ "" →
      createResolver ip
        = ({ PreferGo := true,
             Dial := some { timeoutMs := 10000, dialNetwork := "udp",
                            dialAddress := ip ++ ":53" } }, none)) := by
  constructor
  · intro h
    simp [createResolver, (utf8ByteSize_lt_one_iff ip).2 h]
  · intro h
    have h1 : ¬ ip.utf8ByteSize < 1 := fun hlt => h ((utf8ByteSize_lt_one_iff ip).1 hlt)
    simp [createResolver, h1]

/-- Witness of C6: the empty string, and a string that is not an IP address. -/
theorem createResolver_empty_or_resolver_witness :
    (createResolver "").2 = some "need a valid ip to create Resolver" ∧
    createResolver "not an ip"
      = ({ PreferGo := true,
           Dial := some { timeoutMs := 10000, dialNetwork := "udp",
                          dialAddress := "not an ip" ++ ":53" } }, none) :=
  ⟨(createResolver_empty_or_resolver "").1 rfl,
   (createResolver_empty_or_resolver "not an ip").2 (by decide)⟩

/-! ## The claim on `dnsLookup` -/

/-- C7: for every resolver and hostname, `dnsLookup` returns nil when the host lookup
succeeds, and when the host lookup fails with error `e` it returns the error whose
message is "DNS Status check determined that " + host + " is DOWN: " + the text of
`e`, a message that contains the hostname. -/
theorem dnsLookup_nil_or_down (env : Env) (tr : List Event) (resolver : Resolver)
    (host : String) :
    (∀ addrs, env.resolverLookupHost tr resolver host = .ok addrs →
      (dnsLookup env tr resolver host).1 = none) ∧
    (∀ e, env.resolverLookupHost tr resolver host = .error e →
      (dnsLookup env tr resolver host).1
        = some ("DNS Status check determined that " ++ host ++ " is DOWN: " ++ e) ∧
      ∃ before after, (dnsLookup env tr resolver host).1 = some (before ++ host ++ after)) := by
  constructor
  · intro addrs h
    simp [dnsLookup, h]
  · intro e h
    refine ⟨by simp [dnsLookup, h], "DNS Status check determined that ", " is DOWN: " ++ e, ?_⟩
    simp [dnsLookup, h, String.append_assoc]

/-- Witness of C7: a lookup of "google.com" that succeeds and a lookup of
"bad.host.com" that fails with "no such host". -/
theorem dnsLookup_nil_or_down_witness :
    (dnsLookup (sampleEnv ⟨[]⟩ ["bad.host.com"] none none) [] (createResolver "8.8.8.8").1
      "google.com").1 = none ∧
    (dnsLookup (sampleEnv ⟨[]⟩ ["bad.host.com"] none none) [] (createResolver "8.8.8.8").1
      "bad.host.com").1
      = some ("DNS Status check determined that " ++ "bad.host.com" ++ " is DOWN: "
          ++ "no such host") :=
  ⟨(dnsLookup_nil_or_down (sampleEnv ⟨[]⟩ ["bad.host.com"] none none) []
      (createResolver "8.8.8.8").1 "google.com").1 ["93.184.216.34"] rfl,
   ((dnsLookup_nil_or_down (sampleEnv ⟨[]⟩ ["bad.host.com"] none none) []
      (createResolver "8.8.8.8").1 "bad.host.com").2 "no such host" rfl).1⟩

/-! ## The claim on `parseConfig` -/

/-- C9: every `CheckConfig` that `parseConfig` returns without error has a non-empty
`Hostname` and a `CheckTimeout` greater than zero, for every environment, every
current time and every result of the deadline query; and `parseConfig` returns an
error whenever `HOSTNAME` is empty. -/
theorem parseConfig_invariant (e : ConfigEnv) :
    (∀ cfg, parseConfig e = .ok cfg → cfg.Hostname ≠ "" ∧ cfg.CheckTimeout > 0) ∧
    (e.getenv "HOSTNAME" = "" →
      parseConfig e = .error "HOSTNAME environment variable has not been set") := by
  constructor
  · intro cfg h
    unfold parseConfig at h
    simp only [utf8ByteSize_eq_zero_iff] at h
    split_ifs at h with h1 h2
    have hcfg := (Except.ok.injEq _ _ ▸ h : _ = cfg)
    subst hcfg
    refine ⟨h1, ?_⟩
    show (0 : Int) < _
    cases hd : e.getDeadline with
    | error err => simp [defaultCheckTimeout, Minute, Second]
    | ok deadline =>
      simp only
      split_ifs with h3
      · exact h3
      · simp [defaultCheckTimeout, Minute, Second]
  · intro h
    simp [parseConfig, h, utf8ByteSize_eq_zero_iff]

/-- Witness of C9: a deadline three seconds after the current time, which is within
the padding of five seconds, gives the default timeout of five minutes; and an
empty `HOSTNAME` gives the error. -/
theorem parseConfig_invariant_witness :
    parseConfig ⟨sampleGetenv "kubernetes.default", 1000 * Second, .ok (1003 * Second)⟩
      = .ok ⟨"kubernetes.default", "node-1", "", "", 300000000000⟩ ∧
    ("kubernetes.default" ≠ "" ∧ (300000000000 : Int) > 0) ∧
    parseConfig ⟨sampleGetenv "", 1000 * Second, .error "no deadline"⟩
      = .error "HOSTNAME environment variable has not been set" :=
  ⟨rfl,
   (parseConfig_invariant
      ⟨sampleGetenv "kubernetes.default", 1000 * Second, .ok (1003 * Second)⟩).1
      ⟨"kubernetes.default", "node-1", "", "", 300000000000⟩ (by rfl),
   (parseConfig_invariant ⟨sampleGetenv "", 1000 * Second, .error "no deadline"⟩).2
      (by decide)⟩

/-! ## The claim on `checkEndpoints` -/

/-- C3: in `checkEndpoints`, when the endpoint query succeeds and the extraction
yields the IP list `ips`, the lookups are made in list order and the check is
fail-fast. An IP counts as attempted when its step (create the resolver, then look
the host up) is started; `checkEndpointsAttempts` is `checkEndpoints` together with
the list of attempted IPs. If `i` is the first index whose resolver creation or
lookup fails, `checkEndpoints` returns exactly that failure and the attempted IPs are
exactly `ips[0..i]`, none later; the calls of `LookupHost` made are those for the IPs
before `i`, in order, and then the one for the IP at `i` unless its resolver could
not be created. `checkEndpoints` returns success only if the resolver was created and
the lookup succeeded for every IP of the list, and it has then attempted every IP and
made exactly one lookup per IP, in list order; and if no step fails it does return
success. -/
theorem checkEndpoints_fail_fast (env : Env) (dc : Checker) (tr : List Event)
    (endpoints : EndpointsList) (ips : List String)
    (hq : env.listEndpoints tr dc.Namespace dc.LabelSelector = .ok endpoints)
    (hx : getIpsFromEndpoint endpoints = (ips, none)) :
    (checkEndpointsAttempts env dc tr).1 = checkEndpoints env dc tr ∧
    (∀ i e, i < ips.length →
      (∀ j, j < i →
        stepError env dc.Hostname (tr ++ [Event.listEndpoints dc.Namespace dc.LabelSelector])
          ips j = none) →
      stepError env dc.Hostname (tr ++ [Event.listEndpoints dc.Namespace dc.LabelSelector])
        ips i = some e →
      checkEndpoints env dc tr
        = (some e, tr ++ [Event.listEndpoints dc.Namespace dc.LabelSelector]
            ++ lookupEvents dc.Hostname
                (ips.take (if (resolverError ips i).isSome then i else i + 1))) ∧
      (checkEndpointsAttempts env dc tr).2 = ips.take (i + 1)) ∧
    ((checkEndpoints env dc tr).1 = none →
      (checkEndpoints env dc tr).2
        = tr ++ [Event.listEndpoints dc.Namespace dc.LabelSelector]
            ++ lookupEvents dc.Hostname ips ∧
      (checkEndpointsAttempts env dc tr).2 = ips ∧
      ∀ j (hj : j < ips.length), resolverError ips j = none ∧
        ∃ addrs, env.resolverLookupHost
          (tr ++ [Event.listEndpoints dc.Namespace dc.LabelSelector]
            ++ lookupEvents dc.Hostname (ips.take j))
          (createResolver ips[j]).1 dc.Hostname = .ok addrs) ∧
    ((∀ j, j < ips.length →
        stepError env dc.Hostname (tr ++ [Event.listEndpoints dc.Namespace dc.LabelSelector])
          ips j = none) →
      checkEndpoints env dc tr
        = (none, tr ++ [Event.listEndpoints dc.Namespace dc.LabelSelector]
            ++ lookupEvents dc.Hostname ips)) := by
  refine ⟨checkEndpointsAttempts_fst env dc tr, fun i e hi hbefore hat =>
    ⟨checkEndpoints_first_error env dc tr endpoints ips hq hx i e hi hbefore hat,
     checkEndpointsAttempts_first_error env dc tr endpoints ips hq hx i e hi hbefore hat⟩,
    ?_, checkEndpoints_all_steps_ok env dc tr endpoints ips hq hx⟩
  intro hnil
  have hall := checkEndpoints_nil_all_steps env dc tr endpoints ips hq hx hnil
  refine ⟨?_, checkEndpointsAttempts_all_steps_ok env dc tr endpoints ips hq hx hall, ?_⟩
  · rw [checkEndpoints_all_steps_ok env dc tr endpoints ips hq hx hall]
  · intro j hj
    exact stepError_none_lookup_ok env dc.Hostname _ ips j hj (hall j hj)

/-- Witness of C3. With the IPs 10.0.0.1 and 10.0.0.2, where the lookup through
10.0.0.1 fails, the check fails with that failure after the one lookup through
10.0.0.1, and 10.0.0.2 is not attempted. With the IPs 10.0.0.1, "" and 10.0.0.3,
the resolver creation fails at index 1: the attempted IPs are the first two, the one
lookup made is that through 10.0.0.1, and 10.0.0.3 is not attempted. With the IPs
10.0.0.1 and 10.0.0.2 and nothing failing, the check succeeds after the lookups
through 10.0.0.1 and 10.0.0.2, in this order. -/
theorem checkEndpoints_fail_fast_witness :
    (checkEndpoints
        (serverDownEnv ⟨[⟨[⟨[⟨"10.0.0.1"⟩, ⟨"10.0.0.2"⟩]⟩]⟩]⟩ "10.0.0.1")
        (sampleChecker "kubernetes.default" "k8s-app=kube-dns") []
      = (some "DNS Status check determined that kubernetes.default is DOWN: i/o timeout",
         [Event.listEndpoints "kube-system" "k8s-app=kube-dns",
          Event.resolverLookupHost (createResolver "10.0.0.1").1 "kubernetes.default"]) ∧
      (checkEndpointsAttempts
        (serverDownEnv ⟨[⟨[⟨[⟨"10.0.0.1"⟩, ⟨"10.0.0.2"⟩]⟩]⟩]⟩ "10.0.0.1")
        (sampleChecker "kubernetes.default" "k8s-app=kube-dns") []).2 = ["10.0.0.1"]) ∧
    (checkEndpoints
        (sampleEnv ⟨[⟨[⟨[⟨"10.0.0.1"⟩, ⟨""⟩]⟩, ⟨[⟨"10.0.0.3"⟩]⟩]⟩]⟩ [] none none)
        (sampleChecker "kubernetes.default" "k8s-app=kube-dns") []
      = (some "need a valid ip to create Resolver",
         [Event.listEndpoints "kube-system" "k8s-app=kube-dns",
          Event.resolverLookupHost (createResolver "10.0.0.1").1 "kubernetes.default"]) ∧
      (checkEndpointsAttempts
        (sampleEnv ⟨[⟨[⟨[⟨"10.0.0.1"⟩, ⟨""⟩]⟩, ⟨[⟨"10.0.0.3"⟩]⟩]⟩]⟩ [] none none)
        (sampleChecker "kubernetes.default" "k8s-app=kube-dns") []).2 = ["10.0.0.1", ""]) ∧
    checkEndpoints
        (sampleEnv ⟨[⟨[⟨[⟨"10.0.0.1"⟩, ⟨"10.0.0.2"⟩]⟩]⟩]⟩ [] none none)
        (sampleChecker "kubernetes.default" "k8s-app=kube-dns") []
      = (none,
         [Event.listEndpoints "kube-system" "k8s-app=kube-dns",
          Event.resolverLookupHost (createResolver "10.0.0.1").1 "kubernetes.default",
          Event.resolverLookupHost (createResolver "10.0.0.2").1 "kubernetes.default"]) :=
  ⟨(checkEndpoints_fail_fast
      (serverDownEnv ⟨[⟨[⟨[⟨"10.0.0.1"⟩, ⟨"10.0.0.2"⟩]⟩]⟩]⟩ "10.0.0.1")
      (sampleChecker "kubernetes.default" "k8s-app=kube-dns") []
      ⟨[⟨[⟨[⟨"10.0.0.1"⟩, ⟨"10.0.0.2"⟩]⟩]⟩]⟩ ["10.0.0.1", "10.0.0.2"] rfl (by decide)).2.1
      0 "DNS Status check determined that kubernetes.default is DOWN: i/o timeout"
      (by decide) (fun j hj => absurd hj (Nat.not_lt_zero j)) (by decide),
   (checkEndpoints_fail_fast
      (sampleEnv ⟨[⟨[⟨[⟨"10.0.0.1"⟩, ⟨""⟩]⟩, ⟨[⟨"10.0.0.3"⟩]⟩]⟩]⟩ [] none none)
      (sampleChecker "kubernetes.default" "k8s-app=kube-dns") []
      ⟨[⟨[⟨[⟨"10.0.0.1"⟩, ⟨""⟩]⟩, ⟨[⟨"10.0.0.3"⟩]⟩]⟩]⟩ ["10.0.0.1", "", "10.0.0.3"] rfl
      (by decide)).2.1
      1 "need a valid ip to create Resolver" (by decide)
      (fun j hj => by
        have h0 : j = 0 := by omega
        subst h0
        decide)
      (by decide),
   (checkEndpoints_fail_fast
      (sampleEnv ⟨[⟨[⟨[⟨"10.0.0.1"⟩, ⟨"10.0.0.2"⟩]⟩]⟩]⟩ [] none none)
      (sampleChecker "kubernetes.default" "k8s-app=kube-dns") []
      ⟨[⟨[⟨[⟨"10.0.0.1"⟩, ⟨"10.0.0.2"⟩]⟩]⟩]⟩ ["10.0.0.1", "10.0.0.2"] rfl (by decide)).2.2.2
      (fun j hj => by
        have h01 : j = 0 ∨ j = 1 := by
          have hlen : j < 2 := hj
          omega
        rcases h01 with h | h <;> subst h <;> decide)⟩

/-! ## The claim on `doChecks` -/

/-- C5: `doChecks` selects the strategy by the label selector alone. If
`LabelSelector` is not empty it returns exactly the result of `checkEndpoints` and
makes no lookup with the default resolver. If `LabelSelector` is empty the only call
it makes is one lookup of `Hostname` with the default resolver, so it never queries
the directory service, and it returns nil if and only if that lookup succeeds. -/
theorem doChecks_selects_strategy (env : Env) (dc : Checker) (tr : List Event) :
    (dc.LabelSelector ≠ "" →
      doChecks env dc tr = checkEndpoints env dc tr ∧
      ∃ evs, (doChecks env dc tr).2 = tr ++ evs ∧ ∀ host, Event.netLookupHost host ∉ evs) ∧
    (dc.LabelSelector = "" →
      (doChecks env dc tr).2 = tr ++ [Event.netLookupHost dc.Hostname] ∧
      ((doChecks env dc tr).1 = none ↔ ∃ addrs, env.netLookupHost tr dc.Hostname = .ok addrs)) := by
  constructor
  · intro h
    refine ⟨doChecks_eq_checkEndpoints env dc tr h, ?_⟩
    rw [doChecks_eq_checkEndpoints env dc tr h]
    obtain ⟨evs, h1, h2⟩ := checkEndpoints_events env dc tr
    refine ⟨evs, h1, ?_⟩
    intro host hmem
    rcases h2 _ hmem with h3 | ⟨r, h3⟩ <;> cases h3
  · intro h
    rw [doChecks_direct env dc tr h]
    cases hl : env.netLookupHost tr dc.Hostname with
    | error err => simp
    | ok addrs => simp

/-- Witness of C5: with the selector "k8s-app=kube-dns" the result is that of
`checkEndpoints`; with the empty selector the one call is the lookup of the hostname
with the default resolver. -/
theorem doChecks_selects_strategy_witness :
    doChecks (sampleEnv ⟨[⟨[⟨[⟨"10.0.0.1"⟩]⟩]⟩]⟩ [] none none)
        (sampleChecker "kubernetes.default" "k8s-app=kube-dns") []
      = checkEndpoints (sampleEnv ⟨[⟨[⟨[⟨"10.0.0.1"⟩]⟩]⟩]⟩ [] none none)
        (sampleChecker "kubernetes.default" "k8s-app=kube-dns") [] ∧
    (doChecks (sampleEnv ⟨[]⟩ [] none none) (sampleChecker "kubernetes.default" "") []).2
      = [] ++ [Event.netLookupHost "kubernetes.default"] :=
  ⟨((doChecks_selects_strategy (sampleEnv ⟨[⟨[⟨[⟨"10.0.0.1"⟩]⟩]⟩]⟩ [] none none)
      (sampleChecker "kubernetes.default" "k8s-app=kube-dns") []).1 (by decide)).1,
   ((doChecks_selects_strategy (sampleEnv ⟨[]⟩ [] none none)
      (sampleChecker "kubernetes.default" "") []).2 rfl).1⟩

/-! ## The claims on `Run` -/

/-- C4: every execution of `Checker.Run` makes exactly one call of the reporting
sink. When the strategy completes before the timer with no error, the call is
report-success and report-failure is never called; when the strategy completes first
with an error, the call is report-failure with the single message equal to that
error's text; when the timer fires first, the call is report-failure with the timeout
message and report-success is never called. -/
theorem Run_reports_exactly_once (env : Env) (dc : Checker) :
    (∀ sel, (sinkCalls (Run env dc sel).2).length = 1) ∧
    ((doChecks env dc []).1 = none →
      sinkCalls (Run env dc .doneChan).2 = [Event.reportSuccess]) ∧
    (∀ e, (doChecks env dc []).1 = some e →
      sinkCalls (Run env dc .doneChan).2 = [Event.reportFailure [e]]) ∧
    (∀ k, sinkCalls (Run env dc (.timeAfter k)).2 = [Event.reportFailure [timeoutMessage]]) := by
  refine ⟨?_, sinkCalls_Run_success env dc, sinkCalls_Run_failure env dc,
    sinkCalls_Run_timeAfter env dc⟩
  intro sel
  cases sel with
  | timeAfter k => rw [sinkCalls_Run_timeAfter]; rfl
  | doneChan =>
    cases h : (doChecks env dc []).1 with
    | none => rw [sinkCalls_Run_success env dc h]; rfl
    | some e => rw [sinkCalls_Run_failure env dc e h]; rfl

/-- Witness of C4: a check of two endpoint IPs that passes reports success once, and
a direct check of a host that is down reports its failure once. -/
theorem Run_reports_exactly_once_witness :
    sinkCalls (Run (sampleEnv ⟨[⟨[⟨[⟨"10.0.0.1"⟩, ⟨"10.0.0.2"⟩]⟩]⟩]⟩ [] none none)
        (sampleChecker "kubernetes.default" "k8s-app=kube-dns") .doneChan).2
      = [Event.reportSuccess] ∧
    sinkCalls (Run (sampleEnv ⟨[]⟩ ["bad.host.com"] none none)
        (sampleChecker "bad.host.com" "") .doneChan).2
      = [Event.reportFailure
          ["DNS Status check determined that bad.host.com is DOWN: no such host"]] :=
  ⟨(Run_reports_exactly_once (sampleEnv ⟨[⟨[⟨[⟨"10.0.0.1"⟩, ⟨"10.0.0.2"⟩]⟩]⟩]⟩ [] none none)
      (sampleChecker "kubernetes.default" "k8s-app=kube-dns")).2.1 (by decide),
   (Run_reports_exactly_once (sampleEnv ⟨[]⟩ ["bad.host.com"] none none)
      (sampleChecker "bad.host.com" "")).2.2.1
      "DNS Status check determined that bad.host.com is DOWN: no such host" (by decide)⟩

/-- C8: whenever the call of the reporting sink that `Checker.Run` makes returns an
error `e`, in any of the three branches (report-failure on a timeout, report-failure
for a failed check, report-success for a passed check), `Run` returns that same error
`e`, and the sink is called that one time only. -/
theorem Run_returns_sink_error (env : Env) (dc : Checker) :
    (∀ k e, env.reportFailure ((doChecks env dc []).2.take k) [timeoutMessage] = some e →
      (Run env dc (.timeAfter k)).1 = some e ∧
      sinkCalls (Run env dc (.timeAfter k)).2 = [Event.reportFailure [timeoutMessage]]) ∧
    (∀ m e, (doChecks env dc []).1 = some m →
      env.reportFailure (doChecks env dc []).2 [m] = some e →
      (Run env dc .doneChan).1 = some e ∧
      sinkCalls (Run env dc .doneChan).2 = [Event.reportFailure [m]]) ∧
    (∀ e, (doChecks env dc []).1 = none →
      env.reportSuccess (doChecks env dc []).2 = some e →
      (Run env dc .doneChan).1 = some e ∧
      sinkCalls (Run env dc .doneChan).2 = [Event.reportSuccess]) := by
  refine ⟨?_, ?_, ?_⟩
  · intro k e h
    refine ⟨?_, sinkCalls_Run_timeAfter env dc k⟩
    rw [Run_timeAfter_fst, h]
  · intro m e hm h
    refine ⟨?_, sinkCalls_Run_failure env dc m hm⟩
    rw [Run_doneChan_failure env dc m hm, h]
  · intro e hn h
    refine ⟨?_, sinkCalls_Run_success env dc hn⟩
    rw [Run_doneChan_success env dc hn, h]

/-- Witness of C8: a sink that answers every call with "connection refused", on a
timeout, for a failed check and for a passed check. -/
theorem Run_returns_sink_error_witness :
    (Run (sampleEnv ⟨[]⟩ [] (some "connection refused") (some "connection refused"))
        (sampleChecker "kubernetes.default" "") (.timeAfter 0)).1 = some "connection refused" ∧
    (Run (sampleEnv ⟨[]⟩ ["bad.host.com"] (some "connection refused")
        (some "connection refused"))
        (sampleChecker "bad.host.com" "") .doneChan).1 = some "connection refused" ∧
    (Run (sampleEnv ⟨[]⟩ [] (some "connection refused") (some "connection refused"))
        (sampleChecker "kubernetes.default" "") .doneChan).1 = some "connection refused" :=
  ⟨((Run_returns_sink_error
      (sampleEnv ⟨[]⟩ [] (some "connection refused") (some "connection refused"))
      (sampleChecker "kubernetes.default" "")).1 0 "connection refused" rfl).1,
   ((Run_returns_sink_error
      (sampleEnv ⟨[]⟩ ["bad.host.com"] (some "connection refused") (some "connection refused"))
      (sampleChecker "bad.host.com" "")).2.1
      "DNS Status check determined that bad.host.com is DOWN: no such host"
      "connection refused" (by decide) rfl).1,
   ((Run_returns_sink_error
      (sampleEnv ⟨[]⟩ [] (some "connection refused") (some "connection refused"))
      (sampleChecker "kubernetes.default" "")).2.2 "connection refused" (by decide) rfl).1⟩

/-- C10: `Checker.Run` returns nil if and only if the strategy completes before the
timer and the one call of the sink succeeds, whether the check passed or failed: a
failed check whose report-failure call succeeds makes `Run` return nil, and a timeout
always makes `Run` return an error, the timeout message when report-failure succeeds
and the error of the sink otherwise. -/
theorem Run_nil_iff (env : Env) (dc : Checker) :
    (∀ sel, (Run env dc sel).1 = none ↔
      sel = .doneChan ∧
      sinkResponse env (doChecks env dc []).2
        (match (doChecks env dc []).1 with
         | some m => Event.reportFailure [m]
         | none => Event.reportSuccess) = none) ∧
    (∀ m, (doChecks env dc []).1 = some m →
      env.reportFailure (doChecks env dc []).2 [m] = none →
      (Run env dc .doneChan).1 = none) ∧
    (∀ k, (env.reportFailure ((doChecks env dc []).2.take k) [timeoutMessage] = none →
        (Run env dc (.timeAfter k)).1 = some timeoutMessage) ∧
      (∀ e, env.reportFailure ((doChecks env dc []).2.take k) [timeoutMessage] = some e →
        (Run env dc (.timeAfter k)).1 = some e)) := by
  refine ⟨?_, ?_, ?_⟩
  · intro sel
    cases sel with
    | timeAfter k =>
      rw [Run_timeAfter_fst]
      cases env.reportFailure ((doChecks env dc []).2.take k) [timeoutMessage] <;> simp
    | doneChan =>
      cases h : (doChecks env dc []).1 with
      | none => rw [Run_doneChan_success env dc h]; simp [sinkResponse]
      | some m => rw [Run_doneChan_failure env dc m h]; simp [sinkResponse]
  · intro m hm h
    rw [Run_doneChan_failure env dc m hm, h]
  · intro k
    constructor
    · intro h
      rw [Run_timeAfter_fst, h]
    · intro e h
      rw [Run_timeAfter_fst, h]

/-- Witness of C10: a direct check of a host that is down, with a sink that accepts
the report, makes `Run` return nil; on a timeout with the same sink `Run` returns the
timeout message. -/
theorem Run_nil_iff_witness :
    (Run (sampleEnv ⟨[]⟩ ["bad.host.com"] none none)
        (sampleChecker "bad.host.com" "") .doneChan).1 = none ∧
    (Run (sampleEnv ⟨[]⟩ ["bad.host.com"] none none)
        (sampleChecker "bad.host.com" "") (.timeAfter 0)).1 = some timeoutMessage :=
  ⟨(Run_nil_iff (sampleEnv ⟨[]⟩ ["bad.host.com"] none none)
      (sampleChecker "bad.host.com" "")).2.1
      "DNS Status check determined that bad.host.com is DOWN: no such host" (by decide) rfl,
   ((Run_nil_iff (sampleEnv ⟨[]⟩ ["bad.host.com"] none none)
      (sampleChecker "bad.host.com" "")).2.2 0).1 rfl⟩

end DnsResolutionCheck
